import Mathlib

/-!
Verification of fabgl `vgacontroller.h` (FabGL VGA controller).

The repository provides the header `src/vgacontroller.h`: the inline
functions (`operator==`/`operator!=` on `RGB`, the glyph-map item
macros/accessors, `Sprite::nextFrame`) are embedded directly from their
source bodies.  The bodies of the `VGAControllerClass` member functions
(`execFillRect`, `preparePixel`, `setResolution`, suspend/resume, ...)
are not part of the repository snapshot; those operations are modelled
from the specification, and each such definition is marked
`Modelled from the spec:`.

Machine integers are modelled as `Nat`/`Int` with explicit reductions
modulo `2^w` where the width matters.
-/

/-! ## RGB color (vgacontroller.h lines 241-261) -/

/-- RGB color with three 2-bit channels (`uint8_t R : 2; G : 2; B : 2`).
Channel values are the stored bitfield values, hence `< 4`. -/
structure RGB where
  R : Nat
  G : Nat
  B : Nat
deriving DecidableEq, Repr

/-- Embedding of `operator==(RGB const&, RGB const&)`:
`lhs.R == rhs.R && lhs.G == rhs.G && lhs.B == rhs.B`. -/
def rgbEq (lhs rhs : RGB) : Bool :=
  lhs.R == rhs.R && lhs.G == rhs.G && lhs.B == rhs.B

/-- Embedding of `operator!=(RGB const&, RGB const&)` exactly as written in
the source (line 260): `lhs.R != rhs.R || lhs.G != rhs.G || lhs.B == rhs.B`.
Note the third comparison is `==` in the source. -/
def rgbNeq (lhs rhs : RGB) : Bool :=
  lhs.R != rhs.R || lhs.G != rhs.G || lhs.B == rhs.B

/-! ## Glyph map items (vgacontroller.h lines 343-352)

Items are `uint32_t` words; we model them as `Nat` reduced mod `2^32`.
Layout: bits 0..7 index, 8..11 BG color, 12..15 FG color, 16..31 options. -/

/-- Bit position of the index field (`GLYPHMAP_INDEX_BIT`). -/
def GLYPHMAP_INDEX_BIT : Nat := 0

/-- Bit position of the background color field (`GLYPHMAP_BGCOLOR_BIT`). -/
def GLYPHMAP_BGCOLOR_BIT : Nat := 8

/-- Bit position of the foreground color field (`GLYPHMAP_FGCOLOR_BIT`). -/
def GLYPHMAP_FGCOLOR_BIT : Nat := 12

/-- Bit position of the options field (`GLYPHMAP_OPTIONS_BIT`). -/
def GLYPHMAP_OPTIONS_BIT : Nat := 16

/-- Embedding of `GLYPHMAP_ITEM_MAKE(index, bgColor, fgColor, options)`:
or-combination of the shifted fields, truncated to `uint32_t`.
`options` stands for `options.value`, a `uint16_t`. -/
def GLYPHMAP_ITEM_MAKE (index bgColor fgColor options : Nat) : Nat :=
  ((index <<< GLYPHMAP_INDEX_BIT) ||| (bgColor <<< GLYPHMAP_BGCOLOR_BIT) |||
   (fgColor <<< GLYPHMAP_FGCOLOR_BIT) ||| (options <<< GLYPHMAP_OPTIONS_BIT)) % 2 ^ 32

/-- Embedding of `glyphMapItem_getIndex`: `*mapItem >> GLYPHMAP_INDEX_BIT & 0xFF`. -/
def glyphMapItem_getIndex (mapItem : Nat) : Nat :=
  mapItem >>> GLYPHMAP_INDEX_BIT &&& 0xFF

/-- Embedding of `glyphMapItem_getBGColor`: `*mapItem >> GLYPHMAP_BGCOLOR_BIT & 0x0F`. -/
def glyphMapItem_getBGColor (mapItem : Nat) : Nat :=
  mapItem >>> GLYPHMAP_BGCOLOR_BIT &&& 0x0F

/-- Embedding of `glyphMapItem_getFGColor`: `*mapItem >> GLYPHMAP_FGCOLOR_BIT & 0x0F`. -/
def glyphMapItem_getFGColor (mapItem : Nat) : Nat :=
  mapItem >>> GLYPHMAP_FGCOLOR_BIT &&& 0x0F

/-- Embedding of `glyphMapItem_getOptions`:
`(uint16_t)(*mapItem >> GLYPHMAP_OPTIONS_BIT & 0xFFFF)`. -/
def glyphMapItem_getOptions (mapItem : Nat) : Nat :=
  mapItem >>> GLYPHMAP_OPTIONS_BIT &&& 0xFFFF

/-- Embedding of `glyphMapItem_setOptions`:
`*mapItem = (*mapItem & ~((uint32_t)0xFFFF << GLYPHMAP_OPTIONS_BIT)) | ((uint32_t)(options.value) << GLYPHMAP_OPTIONS_BIT)`.
The `uint32_t` complement `~x` is `x ^^^ 0xFFFFFFFF`. -/
def glyphMapItem_setOptions (mapItem options : Nat) : Nat :=
  ((mapItem &&& ((0xFFFF <<< GLYPHMAP_OPTIONS_BIT) ^^^ 0xFFFFFFFF)) |||
   (options <<< GLYPHMAP_OPTIONS_BIT)) % 2 ^ 32

/-! ## Sprite frame stepping (vgacontroller.h line 478) -/

/-- Wrap an integer into the `int16_t` range, modelling `int16_t` overflow. -/
def wrapInt16 (n : Int) : Int := (n + 32768) % 65536 - 32768

/-- Embedding of `Sprite::nextFrame`:
`++currentFrame; if (currentFrame >= framesCount) currentFrame = 0;`
where `currentFrame` and `framesCount` are `int16_t`.  Returns the new
`currentFrame`. -/
def Sprite_nextFrame (framesCount currentFrame : Int) : Int :=
  let c := wrapInt16 (currentFrame + 1)
  if c ≥ framesCount then 0 else c

/-! ## Helper lemmas on bit packing -/

/-- Or-ing a value below `2^k` with a `k`-shifted value is addition. -/
theorem lor_shiftLeft_eq_add (a b k : Nat) (h : a < 2 ^ k) :
    a ||| (b <<< k) = b * 2 ^ k + a := by
  rw [Nat.shiftLeft_eq, Nat.lor_comm, Nat.mul_comm b (2 ^ k),
    ← Nat.mul_add_lt_is_or h]

theorem and_0xFF_eq_mod (n : Nat) : n &&& 0xFF = n % 256 := by
  have h := Nat.and_pow_two_sub_one_eq_mod n 8
  norm_num at h
  exact h

theorem and_0x0F_eq_mod (n : Nat) : n &&& 0x0F = n % 16 := by
  have h := Nat.and_pow_two_sub_one_eq_mod n 4
  norm_num at h
  exact h

theorem and_0xFFFF_eq_mod (n : Nat) : n &&& 0xFFFF = n % 65536 := by
  have h := Nat.and_pow_two_sub_one_eq_mod n 16
  norm_num at h
  exact h

/-- Arithmetic form of `GLYPHMAP_ITEM_MAKE` for in-range fields. -/
theorem GLYPHMAP_ITEM_MAKE_eq (index bgColor fgColor options : Nat)
    (hi : index < 256) (hb : bgColor < 16) (hf : fgColor < 16)
    (ho : options < 65536) :
    GLYPHMAP_ITEM_MAKE index bgColor fgColor options =
      options * 65536 + fgColor * 4096 + bgColor * 256 + index := by
  unfold GLYPHMAP_ITEM_MAKE GLYPHMAP_INDEX_BIT GLYPHMAP_BGCOLOR_BIT
    GLYPHMAP_FGCOLOR_BIT GLYPHMAP_OPTIONS_BIT
  rw [Nat.shiftLeft_zero]
  rw [lor_shiftLeft_eq_add index bgColor 8 (by omega)]
  rw [lor_shiftLeft_eq_add _ fgColor 12 (by omega)]
  rw [lor_shiftLeft_eq_add _ options 16 (by omega)]
  omega

/-! ## Timings and validation (vgacontroller.h lines 57-82, spec §4.1) -/

/-- Enumeration `ScreenBlock` of the four horizontal/vertical line blocks. -/
inductive ScreenBlock where
  | FrontPorch
  | Sync
  | BackPorch
  | VisibleArea
deriving DecidableEq, Repr

/-- Embedding of `struct Timings`.  The eight block lengths are `int16_t`,
`scanCount` and `multiScanBlack` are `uint8_t`. -/
structure Timings where
  label : String
  frequency : Int
  HVisibleArea : Int
  HFrontPorch : Int
  HSyncPulse : Int
  HBackPorch : Int
  VVisibleArea : Int
  VFrontPorch : Int
  VSyncPulse : Int
  VBackPorch : Int
  HSyncLogic : Char
  VSyncLogic : Char
  scanCount : Nat
  multiScanBlack : Nat
  HStartingBlock : ScreenBlock

/-- Error taxonomy of the driver (spec §7). -/
inductive FabGLError where
  | ConfigurationError
  | OutOfMemoryError
  | InvalidStateError
deriving DecidableEq, Repr

/-- Modelled from the spec: the body of the timings validation performed by
`setResolution` is not part of the repository snapshot.  Spec §4.1:
`validate(Timings)` fails with ConfigurationError when any block length ≤ 0
or the scan multiplier is 0. -/
def validateTimings (t : Timings) : Except FabGLError Unit :=
  if t.HVisibleArea ≤ 0 ∨ t.HFrontPorch ≤ 0 ∨ t.HSyncPulse ≤ 0 ∨ t.HBackPorch ≤ 0 ∨
     t.VVisibleArea ≤ 0 ∨ t.VFrontPorch ≤ 0 ∨ t.VSyncPulse ≤ 0 ∨ t.VBackPorch ≤ 0 ∨
     t.scanCount = 0 then
    Except.error FabGLError.ConfigurationError
  else
    Except.ok ()

/-! ## Background primitive execution suspension (spec §5, vgacontroller.h
lines 712-719 and field `m_VSyncInterruptSuspended`, line 938) -/

/-- State of the background primitive execution machinery:
`m_VSyncInterruptSuspended` (0 = enabled, > 0 suspended) and
`m_backgroundPrimitiveExecutionEnabled`. -/
structure ExecSuspendState where
  suspendCount : Nat
  bgEnabled : Bool
deriving DecidableEq, Repr

/-- Modelled from the spec: the body of
`suspendBackgroundPrimitiveExecution` is not part of the repository
snapshot.  Spec §5: suspension is a nesting counter; each suspend
increments it. -/
def suspendBackgroundPrimitiveExecution (s : ExecSuspendState) : ExecSuspendState :=
  { s with suspendCount := s.suspendCount + 1 }

/-- Modelled from the spec: the body of
`resumeBackgroundPrimitiveExecution` is not part of the repository
snapshot.  Spec §5: each resume decrements the nesting counter; draining
resumes only when it reaches 0. -/
def resumeBackgroundPrimitiveExecution (s : ExecSuspendState) : ExecSuspendState :=
  { s with suspendCount := s.suspendCount - 1 }

/-- Background primitives drain only when not suspended and enabled. -/
def backgroundExecutionActive (s : ExecSuspendState) : Bool :=
  s.suspendCount == 0 && s.bgEnabled

/-! ## Buffer swap (spec §4.4/§5, vgacontroller.h lines 810, 872,
fields lines 912-933) -/

/-- The double-buffering related state of the controller: the
`m_doubleBuffered` flag, abstract identifiers of the drawing
(`m_viewPort`) and visible (`m_viewPortVisible`) viewports, and which DMA
descriptor chain is live. -/
structure SwapState where
  doubleBuffered : Bool
  viewPort : Nat
  viewPortVisible : Nat
  liveChain : Bool
deriving DecidableEq, Repr

/-- Embedding of `isDoubleBuffered()` (line 810). -/
def isDoubleBuffered (s : SwapState) : Bool := s.doubleBuffered

/-- Modelled from the spec: the body of `execSwapBuffers` is not part of
the repository snapshot.  Spec §4.4: buffer swap is valid only with double
buffering enabled, hands the live chain to the other buffer, and fails
with InvalidStateError otherwise.  Returns the possible error paired with
the state after the call. -/
def execSwapBuffers (s : SwapState) : Option FabGLError × SwapState :=
  if isDoubleBuffered s then
    (none, { s with viewPort := s.viewPortVisible
                    viewPortVisible := s.viewPort
                    liveChain := !s.liveChain })
  else
    (some FabGLError.InvalidStateError, s)

/-! ## Viewport memory packing (spec §4.3, vgacontroller.h lines 639-641,
848, field `m_viewPortMemoryPool` line 924) -/

/-- Modelled from the spec: the body of `allocateViewPort` is not part of
the repository snapshot.  Spec §4.3: rows are packed across a list of
heterogeneous pools, a row never split across pools; each pool of capacity
`c` bytes holds `c / rowSize` whole rows.  `packRows` returns the number
of whole rows taken from each pool for a wanted total. -/
def packRows (rowSize : Nat) (pools : List Nat) (wanted : Nat) : List Nat :=
  match pools with
  | [] => []
  | c :: rest =>
    let takeHere := min wanted (c / rowSize)
    takeHere :: packRows rowSize rest (wanted - takeHere)

/-- Total number of whole rows the pools can hold. -/
def maxFittingRows (rowSize : Nat) (pools : List Nat) : Nat :=
  (pools.map (· / rowSize)).sum

/-- Number of rows actually committed for a wanted row count. -/
def committedRows (rowSize : Nat) (pools : List Nat) (wanted : Nat) : Nat :=
  (packRows rowSize pools wanted).sum

/-- Modelled from the spec: the height committed by
`setResolution`/`allocateViewPort` for a requested viewport height.  Spec:
`viewPortHeight` less than zero is sized to the maximum allocable;
requesting excess height returns the maximal fitting height. -/
def allocateViewPortHeight (rowSize : Nat) (pools : List Nat) (requested : Int) : Nat :=
  if requested < 0 then maxFittingRows rowSize pools
  else committedRows rowSize pools requested.toNat

/-! ## Pixel sample encoding (spec §4.1, vgacontroller.h line 842) -/

/-- Modelled from the spec: the body of `preparePixel(RGB, HSync, VSync)`
is not part of the repository snapshot.  Spec §4.1: a pure function
packing one color sample plus two sync bits into one output word, with
fixed bit positions for sync, parameterized by channel bit depth `b`
(1 or 2 bits per channel).  Channels occupy the `3*b` low bits in R, G, B
order; each channel is truncated to `b` bits; the sync bits sit at the
fixed positions 6 (HSync) and 7 (VSync). -/
def preparePixel (bpc : Nat) (rgb : RGB) (hs vs : Bool) : Nat :=
  (rgb.R % 2 ^ bpc) |||
  ((rgb.G % 2 ^ bpc) <<< bpc) |||
  ((rgb.B % 2 ^ bpc) <<< (2 * bpc)) |||
  ((cond hs 1 0) <<< 6) |||
  ((cond vs 1 0) <<< 7)

/-- Mask selecting the color bits of an output sample word. -/
def colorBitsMask (bpc : Nat) : Nat := 2 ^ (3 * bpc) - 1

/-- Mask-extract the color bits of an output sample word. -/
def extractColorBits (bpc : Nat) (word : Nat) : Nat := word &&& colorBitsMask bpc

/-- Red channel of the mask-extracted color bits. -/
def extractR (bpc : Nat) (word : Nat) : Nat := extractColorBits bpc word % 2 ^ bpc

/-- Green channel of the mask-extracted color bits. -/
def extractG (bpc : Nat) (word : Nat) : Nat :=
  extractColorBits bpc word >>> bpc % 2 ^ bpc

/-- Blue channel of the mask-extracted color bits. -/
def extractB (bpc : Nat) (word : Nat) : Nat :=
  extractColorBits bpc word >>> (2 * bpc) % 2 ^ bpc

/-! ## Geometry, paint state and primitive execution (spec §4.4/§7;
vgacontroller.h lines 86-89, 505-536, 856) -/

/-- A point with integer coordinates (`fabgl::Point`, `int16_t` fields). -/
structure Point where
  X : Int
  Y : Int
deriving DecidableEq, Repr

/-- A rectangle given by two corners (`fabgl::Rect`, `int16_t` fields),
both corners inclusive. -/
structure Rect where
  X1 : Int
  Y1 : Int
  X2 : Int
  Y2 : Int
deriving DecidableEq, Repr

/-- Point membership in a rectangle (both bounds inclusive). -/
def Rect.containsPt (r : Rect) (x y : Int) : Bool :=
  decide (r.X1 ≤ x) && decide (x ≤ r.X2) && decide (r.Y1 ≤ y) && decide (y ≤ r.Y2)

/-- Intersection of two rectangles. -/
def Rect.inter (a b : Rect) : Rect :=
  ⟨max a.X1 b.X1, max a.Y1 b.Y1, min a.X2 b.X2, min a.Y2 b.Y2⟩

/-- Translation of a rectangle by a point (the paint origin). -/
def Rect.translate (r : Rect) (p : Point) : Rect :=
  ⟨r.X1 + p.X, r.Y1 + p.Y, r.X2 + p.X, r.Y2 + p.Y⟩

/-- Two rectangles have no common point. -/
def Rect.disjoint (a b : Rect) : Bool :=
  decide (a.X2 < b.X1) || decide (b.X2 < a.X1) || decide (a.Y2 < b.Y1) || decide (b.Y2 < a.Y1)

/-- The viewport rectangle of a `W × H` viewport, in viewport coordinates. -/
def viewPortRect (W H : Int) : Rect := ⟨0, 0, W - 1, H - 1⟩

/-- General paint options (vgacontroller.h lines 500-502):
`swapFGBG` swaps foreground and background colors. -/
structure PaintOptions where
  swapFGBG : Bool
deriving DecidableEq, Repr

/-- A size payload (`fabgl::Size`, `int16_t` fields), used by the ellipse
primitives. -/
structure Size where
  width : Int
  height : Int
deriving DecidableEq, Repr

/-! ## Glyph rendering (spec 4.4; vgacontroller.h lines 270-333, 862-864) -/

/-- Glyph painting options (vgacontroller.h lines 301-314), one field per
bitfield of `union GlyphOptions`; `doubleWidth` is the 2-bit field. -/
structure GlyphOptions where
  fillBackground : Bool
  bold : Bool
  reduceLuminosity : Bool
  italic : Bool
  invert : Bool
  blank : Bool
  underline : Bool
  doubleWidth : Nat
  userOpt1 : Bool
  userOpt2 : Bool
deriving DecidableEq, Repr

/-- Decoding of a packed `GlyphOptions.value` word into its bitfields, in
the declaration order of the union (vgacontroller.h lines 302-313): bit 0
fillBackground, 1 bold, 2 reduceLuminosity, 3 italic, 4 invert, 5 blank,
6 underline, 7-8 doubleWidth, 9 and 10 the user options. -/
def GlyphOptions.ofValue (v : Nat) : GlyphOptions :=
  ⟨v.testBit 0, v.testBit 1, v.testBit 2, v.testBit 3, v.testBit 4,
   v.testBit 5, v.testBit 6, v >>> 7 &&& 3, v.testBit 9, v.testBit 10⟩

/-- Embedding of `struct PaintState` (vgacontroller.h lines 526-536):
pen and brush color, current position (already origin-translated), glyph
and paint options, scrolling region, origin, relative clipping rectangle
and the derived absolute clipping rectangle. -/
structure PaintState where
  penColor : RGB
  brushColor : RGB
  position : Point
  glyphOptions : GlyphOptions
  paintOptions : PaintOptions
  scrollingRegion : Rect
  origin : Point
  clippingRect : Rect
  absClippingRect : Rect
deriving DecidableEq, Repr

/-- A viewport content: the color stored at each coordinate. -/
def Screen : Type := Int → Int → RGB

/-- Embedding of `struct Glyph` (vgacontroller.h lines 270-279): position,
size and 1-bit-per-pixel data.  `data r c` is the bit of row `r`,
column `c`. -/
structure Glyph where
  X : Int
  Y : Int
  width : Nat
  height : Nat
  data : Nat → Nat → Bool

/-- Bit of a glyph at signed row/column, `false` outside the glyph. -/
def glyphBitAt (g : Glyph) (r c : Int) : Bool :=
  decide (0 ≤ r) && decide (r < (g.height : Int)) &&
  decide (0 ≤ c) && decide (c < (g.width : Int)) &&
  g.data r.toNat c.toNat

/-- Effective foreground/background inversion: `GlyphOptions.invert`
XORed with `PaintState.paintOptions.swapFGBG` (vgacontroller.h line 307). -/
def glyphInvertEff (opts : GlyphOptions) (po : PaintOptions) : Bool :=
  xor opts.invert po.swapFGBG

/-- Width in pixels of the rendered glyph cell: doubled when the
`doubleWidth` option is set. -/
def glyphCellWidth (g : Glyph) (opts : GlyphOptions) : Nat :=
  if opts.doubleWidth = 0 then g.width else 2 * g.width

/-- Modelled from the spec: the style-transformed glyph bit used by the
general path.  Spec 4.4: the general path honors
bold/italic/underline/double-width; `doubleWidth` 1 doubles columns, 2 and
3 also sample the top and bottom half of the rows, italic skews the upper
half one pixel to the right, bold also samples the left neighbor column,
underline forces the bottom row on. -/
def styledGlyphBit (g : Glyph) (opts : GlyphOptions) (r c : Int) : Bool :=
  let r1 : Int :=
    if opts.doubleWidth ≤ 1 then r
    else if opts.doubleWidth = 2 then r / 2
    else (r + (g.height : Int)) / 2
  let c1 : Int := if opts.doubleWidth = 0 then c else c / 2
  let c2 : Int := if opts.italic && decide (r1 < (g.height : Int) / 2) then c1 - 1 else c1
  (glyphBitAt g r1 c2 || (opts.bold && glyphBitAt g r1 (c2 - 1))) ||
    (opts.underline && decide (r = (g.height : Int) - 1))

/-- Modelled from the spec: the body of `execDrawGlyph_full` (general
path, any style transform) is not part of the repository snapshot.  Spec
4.4: composes the 1-bit bitmap against fg/bg honoring
bold/italic/underline/invert/blank/double-width, origin-translated and
clipped to the absolute clipping rectangle and the viewport. -/
def execDrawGlyph_full (W H : Int) (ps : PaintState) (g : Glyph)
    (opts : GlyphOptions) (pen brush : RGB) (screen : Screen) : Screen :=
  fun x y =>
    let c := x - (g.X + ps.origin.X)
    let r := y - (g.Y + ps.origin.Y)
    let fg := if glyphInvertEff opts ps.paintOptions then brush else pen
    let bg := if glyphInvertEff opts ps.paintOptions then pen else brush
    if 0 ≤ c ∧ c < (glyphCellWidth g opts : Int) ∧ 0 ≤ r ∧ r < (g.height : Int) ∧
       ps.absClippingRect.containsPt x y = true ∧
       (viewPortRect W H).containsPt x y = true then
      if opts.blank then bg
      else if styledGlyphBit g opts r c then fg
      else if opts.fillBackground then bg
      else screen x y
    else screen x y

/-- Modelled from the spec: the body of `execDrawGlyph_light` (fast path,
no style transform) is not part of the repository snapshot.  Spec 4.4:
composes the raw 1-bit bitmap directly against fg/bg (honoring only
`fillBackground` and the effective inversion), origin-translated and
clipped identically to the general path. -/
def execDrawGlyph_light (W H : Int) (ps : PaintState) (g : Glyph)
    (opts : GlyphOptions) (pen brush : RGB) (screen : Screen) : Screen :=
  fun x y =>
    let c := x - (g.X + ps.origin.X)
    let r := y - (g.Y + ps.origin.Y)
    let fg := if glyphInvertEff opts ps.paintOptions then brush else pen
    let bg := if glyphInvertEff opts ps.paintOptions then pen else brush
    if 0 ≤ c ∧ c < (g.width : Int) ∧ 0 ≤ r ∧ r < (g.height : Int) ∧
       ps.absClippingRect.containsPt x y = true ∧
       (viewPortRect W H).containsPt x y = true then
      if glyphBitAt g r c then fg
      else if opts.fillBackground then bg
      else screen x y
    else screen x y

/-- A glyph option set applies no style transform when bold, italic,
underline and blank are clear and `doubleWidth` is 0 (the dispatch
condition selecting the fast path). -/
def noStyleTransform (opts : GlyphOptions) : Bool :=
  !opts.bold && !opts.italic && !opts.underline && !opts.blank &&
    (opts.doubleWidth == 0)

/-- Modelled from the spec: `execDrawGlyph` dispatches to the fast path
exactly when the options apply no style transform, otherwise to the
general path (spec 4.4; declarations at vgacontroller.h lines 862-864). -/
def execDrawGlyph (W H : Int) (ps : PaintState) (g : Glyph)
    (opts : GlyphOptions) (pen brush : RGB) (screen : Screen) : Screen :=
  if noStyleTransform opts then execDrawGlyph_light W H ps g opts pen brush screen
  else execDrawGlyph_full W H ps g opts pen brush screen

/-! ## Primitive payloads (vgacontroller.h lines 265-523)

Raw byte buffers of the source (`RawData.data`, `Bitmap.data`, the glyphs
buffer data and map) are abstracted as total lookup functions on row and
column indices. -/

/-- Embedding of `struct RawData` (vgacontroller.h lines 286-294): a raw
screen region; `data r c` is the decoded color of row `r`, column `c`. -/
structure RawData where
  X : Int
  Y : Int
  width : Int
  height : Int
  data : Nat → Nat → RGB

/-- Embedding of `struct Bitmap` (vgacontroller.h lines 384-394): a
64-color image with transparency; `pixel r c = none` is a fully
transparent pixel (AA = 0 in the RGBA-2222 byte). -/
structure Bitmap where
  width : Int
  height : Int
  pixel : Nat → Nat → Option RGB

/-- Pixel of a bitmap at signed row/column, transparent outside. -/
def bitmapPixelAt (b : Bitmap) (r c : Int) : Option RGB :=
  if 0 ≤ r ∧ r < b.height ∧ 0 ≤ c ∧ c < b.width then b.pixel r.toNat c.toNat
  else none

/-- Embedding of `struct BitmapDrawingInfo` (vgacontroller.h lines
397-403). -/
structure BitmapDrawingInfo where
  X : Int
  Y : Int
  bitmap : Bitmap

/-- Embedding of `struct GlyphsBuffer` (vgacontroller.h lines 354-361):
glyph cell size, the glyph bitmaps (`glyphsData i r c` is the bit of
glyph index `i` at row `r`, column `c`), the grid size and the map of
packed `uint32_t` items read through the `glyphMapItem_...` accessors. -/
structure GlyphsBuffer where
  glyphsWidth : Int
  glyphsHeight : Int
  glyphsData : Nat → Nat → Nat → Bool
  columns : Int
  rows : Int
  map : Nat → Nat

/-- Embedding of `struct GlyphsBufferRenderInfo` (vgacontroller.h lines
364-370). -/
structure GlyphsBufferRenderInfo where
  itemX : Int
  itemY : Int
  glyphsBuffer : GlyphsBuffer

/-- Embedding of `struct Path` (vgacontroller.h lines 491-494); named
`FabglPath` because `Path` is taken by the ambient library. -/
structure FabglPath where
  points : List Point

/-- The RGB value of each named `Color` (vgacontroller.h lines 214-231,
using the channel values documented there). -/
def colorToRGB (c : Nat) : RGB :=
  match c with
  | 0 => ⟨0, 0, 0⟩
  | 1 => ⟨1, 0, 0⟩
  | 2 => ⟨0, 1, 0⟩
  | 3 => ⟨1, 1, 0⟩
  | 4 => ⟨0, 0, 1⟩
  | 5 => ⟨1, 0, 1⟩
  | 6 => ⟨0, 1, 1⟩
  | 7 => ⟨1, 1, 1⟩
  | 8 => ⟨1, 1, 1⟩
  | 9 => ⟨3, 0, 0⟩
  | 10 => ⟨0, 3, 0⟩
  | 11 => ⟨3, 3, 0⟩
  | 12 => ⟨0, 0, 3⟩
  | 13 => ⟨3, 0, 3⟩
  | 14 => ⟨0, 3, 3⟩
  | 15 => ⟨3, 3, 3⟩
  | _ => ⟨0, 0, 0⟩

/-- Embedding of `enum PrimitiveCmd` (vgacontroller.h lines 90-205), one
constructor per command with its payload, including the conditionally
compiled `InvertRect`, `ReadRawData` and `WriteRawData`. -/
inductive Prim where
  | setPenColor (color : RGB)
  | setBrushColor (color : RGB)
  | setPixel (p : Point)
  | moveTo (p : Point)
  | lineTo (p : Point)
  | fillRect (r : Rect)
  | fillEllipse (s : Size)
  | drawEllipse (s : Size)
  | clear
  | vScroll (amount : Int)
  | hScroll (amount : Int)
  | drawGlyph (g : Glyph)
  | setGlyphOptions (o : GlyphOptions)
  | setPaintOptions (o : PaintOptions)
  | invertRect (r : Rect)
  | copyRect (r : Rect)
  | setScrollingRegion (r : Rect)
  | swapFGBG (r : Rect)
  | readRawData (rd : RawData)
  | writeRawData (rd : RawData)
  | renderGlyphsBuffer (info : GlyphsBufferRenderInfo)
  | drawBitmap (info : BitmapDrawingInfo)
  | refreshSprites
  | swapBuffers
  | fillPath (p : FabglPath)
  | drawPath (p : FabglPath)
  | setOrigin (p : Point)
  | setClippingRect (r : Rect)

/-! ## Primitive execution (spec 4.4/7; vgacontroller.h lines 852-876)

Every write of every drawing primitive goes through `clippedOverlay`,
which stores a color only at points inside both the absolute clipping
rectangle and the viewport: pixels outside clip and viewport are
untouched and no access outside the viewport buffer ever happens. -/

/-- Guarded overlay: paints `color x y` at every point of the shape that
lies inside the clipping rectangle and the `W × H` viewport; every other
point keeps the previous screen content. -/
def clippedOverlay (W H : Int) (clip : Rect) (shape : Int → Int → Bool)
    (color : Int → Int → RGB) (screen : Screen) : Screen :=
  fun x y =>
    if shape x y = true ∧ clip.containsPt x y = true ∧
       (viewPortRect W H).containsPt x y = true then color x y else screen x y

/-- Membership of `(x, y)` on the closed segment from `a` to `b`
(collinearity plus the bounding box). -/
def onSegment (a b : Point) (x y : Int) : Bool :=
  decide ((b.X - a.X) * (y - a.Y) = (b.Y - a.Y) * (x - a.X)) &&
  decide (min a.X b.X ≤ x) && decide (x ≤ max a.X b.X) &&
  decide (min a.Y b.Y ≤ y) && decide (y ≤ max a.Y b.Y)

/-- Membership of `(x, y)` in the filled ellipse centered at `(cx, cy)`
with semi-axes `rx` and `ry`. -/
def inEllipse (cx cy rx ry x y : Int) : Bool :=
  decide ((x - cx) ^ 2 * ry ^ 2 + (y - cy) ^ 2 * rx ^ 2 ≤ rx ^ 2 * ry ^ 2)

/-- Channel-wise complement within the 2-bit channel range. -/
def invertRGB (c : RGB) : RGB := ⟨3 - c.R, 3 - c.G, 3 - c.B⟩

/-- The edges of a closed path: consecutive point pairs, wrapping around. -/
def pathEdges (pts : List Point) : List (Point × Point) :=
  pts.zip (pts.rotate 1)

/-- Whether the horizontal ray leftwards from `(x, y)` crosses the edge
from `a` to `b` (the standard even-odd crossing test, with the division
cleared by multiplying through by the edge height). -/
def edgeCrossesRay (a b : Point) (x y : Int) : Bool :=
  (decide (a.Y ≤ y) != decide (b.Y ≤ y)) &&
  (decide ((b.Y - a.Y) * (x - a.X) < (b.X - a.X) * (y - a.Y)) !=
    decide (b.Y - a.Y < 0))

/-- Even-odd interior test of a closed polygon. -/
def inPolygon (pts : List Point) (x y : Int) : Bool :=
  (pathEdges pts).countP (fun e => edgeCrossesRay e.1 e.2 x y) % 2 == 1

/-- Modelled from the spec: `execSetPixel` paints one pixel with the pen
color at the origin-translated position, clipped. -/
def execSetPixel (W H : Int) (ps : PaintState) (p : Point) (screen : Screen) : Screen :=
  clippedOverlay W H ps.absClippingRect
    (fun x y => decide (x = p.X + ps.origin.X) && decide (y = p.Y + ps.origin.Y))
    (fun _ _ => ps.penColor) screen

/-- Modelled from the spec: `execLineTo` rasterizes the segment from the
current position to the origin-translated target with the pen color,
clipped. -/
def execLineTo (W H : Int) (ps : PaintState) (p : Point) (screen : Screen) : Screen :=
  clippedOverlay W H ps.absClippingRect
    (onSegment ps.position ⟨p.X + ps.origin.X, p.Y + ps.origin.Y⟩)
    (fun _ _ => ps.penColor) screen

/-- Modelled from the spec: the body of `execFillRect` is not part of the
repository snapshot.  Spec 4.4/7: rasterizes against the brush color,
translated by the origin then clipped to the absolute clipping rectangle;
drawing is total over the full signed coordinate range, producing a no-op
or a correctly clipped partial draw. -/
def execFillRect (W H : Int) (ps : PaintState) (r : Rect) (screen : Screen) : Screen :=
  clippedOverlay W H ps.absClippingRect
    (fun x y => (r.translate ps.origin).containsPt x y)
    (fun _ _ => ps.brushColor) screen

/-- Modelled from the spec: `execFillEllipse` fills the ellipse centered
at the current position with the brush color, clipped. -/
def execFillEllipse (W H : Int) (ps : PaintState) (s : Size) (screen : Screen) : Screen :=
  clippedOverlay W H ps.absClippingRect
    (fun x y => inEllipse ps.position.X ps.position.Y (s.width / 2) (s.height / 2) x y)
    (fun _ _ => ps.brushColor) screen

/-- Modelled from the spec: `execDrawEllipse` draws the one-pixel ring of
the ellipse centered at the current position with the pen color, clipped. -/
def execDrawEllipse (W H : Int) (ps : PaintState) (s : Size) (screen : Screen) : Screen :=
  clippedOverlay W H ps.absClippingRect
    (fun x y =>
      inEllipse ps.position.X ps.position.Y (s.width / 2) (s.height / 2) x y &&
      !inEllipse ps.position.X ps.position.Y (s.width / 2 - 1) (s.height / 2 - 1) x y)
    (fun _ _ => ps.penColor) screen

/-- Modelled from the spec: `execClear` fills the clip-visible region with
the brush color. -/
def execClear (W H : Int) (ps : PaintState) (screen : Screen) : Screen :=
  clippedOverlay W H ps.absClippingRect (fun _ _ => true)
    (fun _ _ => ps.brushColor) screen

/-- Modelled from the spec: `execVScroll` moves the content of the
scrolling region down by `amount` rows (up for negative values); rows
revealed by the move are filled with the brush color; clipped. -/
def execVScroll (W H : Int) (ps : PaintState) (amount : Int) (screen : Screen) : Screen :=
  clippedOverlay W H ps.absClippingRect
    (fun x y => ps.scrollingRegion.containsPt x y)
    (fun x y =>
      if ps.scrollingRegion.containsPt x (y - amount) = true then screen x (y - amount)
      else ps.brushColor) screen

/-- Modelled from the spec: `execHScroll` moves the content of the
scrolling region right by `amount` columns (left for negative values);
revealed columns are filled with the brush color; clipped. -/
def execHScroll (W H : Int) (ps : PaintState) (amount : Int) (screen : Screen) : Screen :=
  clippedOverlay W H ps.absClippingRect
    (fun x y => ps.scrollingRegion.containsPt x y)
    (fun x y =>
      if ps.scrollingRegion.containsPt (x - amount) y = true then screen (x - amount) y
      else ps.brushColor) screen

/-- Modelled from the spec: `execInvertRect` complements the colors inside
the origin-translated rectangle, clipped. -/
def execInvertRect (W H : Int) (ps : PaintState) (r : Rect) (screen : Screen) : Screen :=
  clippedOverlay W H ps.absClippingRect
    (fun x y => (r.translate ps.origin).containsPt x y)
    (fun x y => invertRGB (screen x y)) screen

/-- Modelled from the spec: `execCopyRect` copies the source rectangle to
the current position, clipped at the destination. -/
def execCopyRect (W H : Int) (ps : PaintState) (r : Rect) (screen : Screen) : Screen :=
  clippedOverlay W H ps.absClippingRect
    (fun x y => (Rect.mk ps.position.X ps.position.Y
        (ps.position.X + (r.X2 - r.X1)) (ps.position.Y + (r.Y2 - r.Y1))).containsPt x y)
    (fun x y => screen (r.X1 + (x - ps.position.X)) (r.Y1 + (y - ps.position.Y)))
    screen

/-- Modelled from the spec: `execSwapFGBG` swaps pen- and brush-colored
pixels inside the origin-translated rectangle, leaving other colors
unaltered (comment at vgacontroller.h line 161); clipped. -/
def execSwapFGBG (W H : Int) (ps : PaintState) (r : Rect) (screen : Screen) : Screen :=
  clippedOverlay W H ps.absClippingRect
    (fun x y => (r.translate ps.origin).containsPt x y)
    (fun x y =>
      if screen x y = ps.penColor then ps.brushColor
      else if screen x y = ps.brushColor then ps.penColor
      else screen x y) screen

/-- Modelled from the spec: `execWriteRawData` stores the raw region data
at its coordinates, clipped. -/
def execWriteRawData (W H : Int) (ps : PaintState) (rd : RawData) (screen : Screen) : Screen :=
  clippedOverlay W H ps.absClippingRect
    (fun x y => (Rect.mk rd.X rd.Y (rd.X + rd.width - 1)
        (rd.Y + rd.height - 1)).containsPt x y)
    (fun x y => rd.data (y - rd.Y).toNat (x - rd.X).toNat) screen

/-- Modelled from the spec: `execRenderGlyphsBuffer` decodes the map item
at `(itemX, itemY)` with the `glyphMapItem_...` accessors and draws the
selected glyph with the decoded colors and options at the item's cell. -/
def execRenderGlyphsBuffer (W H : Int) (ps : PaintState)
    (info : GlyphsBufferRenderInfo) (screen : Screen) : Screen :=
  let gb := info.glyphsBuffer
  let item := gb.map (info.itemY * gb.columns + info.itemX).toNat
  let g : Glyph := ⟨info.itemX * gb.glyphsWidth, info.itemY * gb.glyphsHeight,
    gb.glyphsWidth.toNat, gb.glyphsHeight.toNat,
    gb.glyphsData (glyphMapItem_getIndex item)⟩
  execDrawGlyph W H ps g (GlyphOptions.ofValue (glyphMapItem_getOptions item))
    (colorToRGB (glyphMapItem_getFGColor item))
    (colorToRGB (glyphMapItem_getBGColor item)) screen

/-- Modelled from the spec: `execDrawBitmap` blits the bitmap at the
origin-translated position honoring per-pixel transparency, clipped. -/
def execDrawBitmap (W H : Int) (ps : PaintState) (info : BitmapDrawingInfo)
    (screen : Screen) : Screen :=
  clippedOverlay W H ps.absClippingRect
    (fun x y => (bitmapPixelAt info.bitmap (y - (info.Y + ps.origin.Y))
        (x - (info.X + ps.origin.X))).isSome)
    (fun x y => (bitmapPixelAt info.bitmap (y - (info.Y + ps.origin.Y))
        (x - (info.X + ps.origin.X))).getD ⟨0, 0, 0⟩) screen

/-- Modelled from the spec: `execFillPath` fills the interior of the
origin-translated closed path with the brush color, clipped. -/
def execFillPath (W H : Int) (ps : PaintState) (path : FabglPath) (screen : Screen) : Screen :=
  clippedOverlay W H ps.absClippingRect
    (fun x y => inPolygon path.points (x - ps.origin.X) (y - ps.origin.Y))
    (fun _ _ => ps.brushColor) screen

/-- Modelled from the spec: `execDrawPath` draws the edges of the
origin-translated closed path with the pen color, clipped. -/
def execDrawPath (W H : Int) (ps : PaintState) (path : FabglPath) (screen : Screen) : Screen :=
  clippedOverlay W H ps.absClippingRect
    (fun x y => (pathEdges path.points).any
      (fun e => onSegment e.1 e.2 (x - ps.origin.X) (y - ps.origin.Y)))
    (fun _ _ => ps.penColor) screen

/-- Modelled from the spec: `updateAbsoluteClippingRect` recomputes the
absolute clipping rectangle as the origin-translated relative clip
intersected with the viewport, immediately on every origin or clip change
(spec section 3: no stale derived state). -/
def updateAbsoluteClippingRect (W H : Int) (ps : PaintState) : PaintState :=
  { ps with absClippingRect :=
      (ps.clippingRect.translate ps.origin).inter (viewPortRect W H) }

/-- Modelled from the spec: `execPrimitive` dispatches one queued
primitive; setter primitives mutate only the paint state, drawing
primitives write only through `clippedOverlay` (or the clipped glyph
paths).  `ReadRawData` only reads, `RefreshSprites` restores and redraws
transient sprite rectangles without corrupting background pixels (spec
section 4.5), and `SwapBuffers` repoints the live chain (modelled on
`SwapState`), so none of these three changes the drawing viewport. -/
def execPrimitiveS (W H : Int) (pr : Prim) :
    PaintState × Screen → PaintState × Screen :=
  fun s =>
    let ps := s.1
    let screen := s.2
    match pr with
    | Prim.setPenColor c => ({ ps with penColor := c }, screen)
    | Prim.setBrushColor c => ({ ps with brushColor := c }, screen)
    | Prim.setPixel p => (ps, execSetPixel W H ps p screen)
    | Prim.moveTo p =>
        ({ ps with position := ⟨p.X + ps.origin.X, p.Y + ps.origin.Y⟩ }, screen)
    | Prim.lineTo p =>
        ({ ps with position := ⟨p.X + ps.origin.X, p.Y + ps.origin.Y⟩ },
         execLineTo W H ps p screen)
    | Prim.fillRect r => (ps, execFillRect W H ps r screen)
    | Prim.fillEllipse sz => (ps, execFillEllipse W H ps sz screen)
    | Prim.drawEllipse sz => (ps, execDrawEllipse W H ps sz screen)
    | Prim.clear => (ps, execClear W H ps screen)
    | Prim.vScroll amount => (ps, execVScroll W H ps amount screen)
    | Prim.hScroll amount => (ps, execHScroll W H ps amount screen)
    | Prim.drawGlyph g =>
        (ps, execDrawGlyph W H ps g ps.glyphOptions ps.penColor ps.brushColor screen)
    | Prim.setGlyphOptions o => ({ ps with glyphOptions := o }, screen)
    | Prim.setPaintOptions o => ({ ps with paintOptions := o }, screen)
    | Prim.invertRect r => (ps, execInvertRect W H ps r screen)
    | Prim.copyRect r => (ps, execCopyRect W H ps r screen)
    | Prim.setScrollingRegion r => ({ ps with scrollingRegion := r }, screen)
    | Prim.swapFGBG r => (ps, execSwapFGBG W H ps r screen)
    | Prim.readRawData _ => (ps, screen)
    | Prim.writeRawData rd => (ps, execWriteRawData W H ps rd screen)
    | Prim.renderGlyphsBuffer info => (ps, execRenderGlyphsBuffer W H ps info screen)
    | Prim.drawBitmap info => (ps, execDrawBitmap W H ps info screen)
    | Prim.refreshSprites => (ps, screen)
    | Prim.swapBuffers => (ps, screen)
    | Prim.fillPath p => (ps, execFillPath W H ps p screen)
    | Prim.drawPath p => (ps, execDrawPath W H ps p screen)
    | Prim.setOrigin p => (updateAbsoluteClippingRect W H { ps with origin := p }, screen)
    | Prim.setClippingRect r =>
        (updateAbsoluteClippingRect W H { ps with clippingRect := r }, screen)

/-- Modelled from the spec: one drain step of the primitive queue pops the
front primitive (consuming its queue slot) and executes it against the
paint state and the screen. -/
def execQueueStep (W H : Int) :
    List Prim × PaintState × Screen → List Prim × PaintState × Screen :=
  fun qs =>
    match qs with
    | ([], ps, screen) => ([], ps, screen)
    | (pr :: rest, ps, screen) => (rest, execPrimitiveS W H pr (ps, screen))

/-! ## Iteration lemmas for suspend/resume -/

theorem suspend_iterate (n : Nat) (s : ExecSuspendState) :
    suspendBackgroundPrimitiveExecution^[n] s =
      ⟨s.suspendCount + n, s.bgEnabled⟩ := by
  induction n generalizing s with
  | zero => cases s; simp
  | succ k ih =>
    rw [Function.iterate_succ_apply, ih]
    simp [suspendBackgroundPrimitiveExecution]
    omega

theorem resume_iterate (n : Nat) (s : ExecSuspendState) :
    resumeBackgroundPrimitiveExecution^[n] s =
      ⟨s.suspendCount - n, s.bgEnabled⟩ := by
  induction n generalizing s with
  | zero => cases s; simp
  | succ k ih =>
    rw [Function.iterate_succ_apply, ih]
    simp [resumeBackgroundPrimitiveExecution]
    omega

/-! ## Claim theorems -/

/-- Claim C8: the source `operator!=` (line 260 compares the B channels
with `==` instead of `!=`) is not the logical negation of `operator==`:
at `lhs = rhs = RGB(0,0,0)` both return `true`. -/
theorem rgbNeq_not_negation_of_rgbEq :
    rgbNeq ⟨0, 0, 0⟩ ⟨0, 0, 0⟩ = true ∧ rgbEq ⟨0, 0, 0⟩ ⟨0, 0, 0⟩ = true := by
  decide

/-- Claim C10: for `framesCount > 0` (an `int16_t`, hence `≤ 32767`) and
`0 ≤ currentFrame < framesCount`, `Sprite::nextFrame` keeps the current
frame index in `[0, framesCount)`, so `getFrame()` never indexes past the
frames array. -/
theorem Sprite_nextFrame_in_range (framesCount currentFrame : Int)
    (hpos : 0 < framesCount) (hmax : framesCount ≤ 32767)
    (hlo : 0 ≤ currentFrame) (hhi : currentFrame < framesCount) :
    0 ≤ Sprite_nextFrame framesCount currentFrame ∧
      Sprite_nextFrame framesCount currentFrame < framesCount := by
  simp only [Sprite_nextFrame, wrapInt16]
  split <;> omega

/-- Witness for C10 at `framesCount = 2`, `currentFrame = 1`. -/
theorem Sprite_nextFrame_in_range_witness :
    0 ≤ Sprite_nextFrame 2 1 ∧ Sprite_nextFrame 2 1 < 2 :=
  Sprite_nextFrame_in_range 2 1 (by decide) (by decide) (by decide) (by decide)

/-- Claim C6: timings validation fails with ConfigurationError exactly
when some horizontal or vertical block length is ≤ 0 or the scan
multiplier is 0, and accepts every other `Timings` value. -/
theorem validateTimings_iff (t : Timings) :
    (validateTimings t = Except.error FabGLError.ConfigurationError ↔
      (t.HVisibleArea ≤ 0 ∨ t.HFrontPorch ≤ 0 ∨ t.HSyncPulse ≤ 0 ∨ t.HBackPorch ≤ 0 ∨
       t.VVisibleArea ≤ 0 ∨ t.VFrontPorch ≤ 0 ∨ t.VSyncPulse ≤ 0 ∨ t.VBackPorch ≤ 0 ∨
       t.scanCount = 0)) ∧
    (validateTimings t = Except.ok () ↔
      ¬(t.HVisibleArea ≤ 0 ∨ t.HFrontPorch ≤ 0 ∨ t.HSyncPulse ≤ 0 ∨ t.HBackPorch ≤ 0 ∨
        t.VVisibleArea ≤ 0 ∨ t.VFrontPorch ≤ 0 ∨ t.VSyncPulse ≤ 0 ∨ t.VBackPorch ≤ 0 ∨
        t.scanCount = 0)) := by
  unfold validateTimings
  split <;> simp_all

/-- Claim C4: for every `n ≥ 1` and every starting state, `n` suspends
followed by `n` resumes restore the prior background-execution state,
while `n` suspends followed by `n - 1` resumes leave the suspend counter
strictly positive, hence background execution inactive. -/
theorem suspend_resume_nesting (n : Nat) (s : ExecSuspendState) (h : 1 ≤ n) :
    resumeBackgroundPrimitiveExecution^[n]
        (suspendBackgroundPrimitiveExecution^[n] s) = s ∧
      0 < (resumeBackgroundPrimitiveExecution^[n - 1]
        (suspendBackgroundPrimitiveExecution^[n] s)).suspendCount ∧
      backgroundExecutionActive (resumeBackgroundPrimitiveExecution^[n - 1]
        (suspendBackgroundPrimitiveExecution^[n] s)) = false := by
  obtain ⟨c, bg⟩ := s
  rw [suspend_iterate, resume_iterate, resume_iterate]
  refine ⟨?_, ?_, ?_⟩
  · simp only [ExecSuspendState.mk.injEq]
    exact ⟨by omega, trivial⟩
  · show 0 < c + n - (n - 1)
    omega
  · have h1 : (c + n - (n - 1) == 0) = false := by
      simp only [beq_eq_false_iff_ne]
      omega
    simp [backgroundExecutionActive, h1]

/-- Witness for C4 at `n = 2` from a state with counter 0. -/
theorem suspend_resume_nesting_witness :
    resumeBackgroundPrimitiveExecution^[2]
        (suspendBackgroundPrimitiveExecution^[2] ⟨0, true⟩) = ⟨0, true⟩ ∧
      0 < (resumeBackgroundPrimitiveExecution^[2 - 1]
        (suspendBackgroundPrimitiveExecution^[2] ⟨0, true⟩)).suspendCount ∧
      backgroundExecutionActive (resumeBackgroundPrimitiveExecution^[2 - 1]
        (suspendBackgroundPrimitiveExecution^[2] ⟨0, true⟩)) = false :=
  suspend_resume_nesting 2 ⟨0, true⟩ (by decide)

/-- Claim C5: `execSwapBuffers` succeeds exactly when double buffering is
enabled; when it is disabled it fails with InvalidStateError and leaves
the state (live chain and both viewports) unchanged. -/
theorem execSwapBuffers_requires_doubleBuffered (s : SwapState) :
    ((execSwapBuffers s).1 = none ↔ isDoubleBuffered s = true) ∧
      (isDoubleBuffered s = false →
        (execSwapBuffers s).1 = some FabGLError.InvalidStateError ∧
          (execSwapBuffers s).2 = s) := by
  unfold execSwapBuffers
  cases h : isDoubleBuffered s <;> simp [h]

/-- Witness for C5 at a single-buffered state. -/
theorem execSwapBuffers_requires_doubleBuffered_witness :
    (execSwapBuffers ⟨false, 0, 1, false⟩).1 = some FabGLError.InvalidStateError ∧
      (execSwapBuffers ⟨false, 0, 1, false⟩).2 = ⟨false, 0, 1, false⟩ :=
  (execSwapBuffers_requires_doubleBuffered ⟨false, 0, 1, false⟩).2 rfl

/-! ## Glyph-map item accessor lemmas -/

theorem glyphMapItem_getIndex_eq (m : Nat) : glyphMapItem_getIndex m = m % 256 := by
  unfold glyphMapItem_getIndex GLYPHMAP_INDEX_BIT
  rw [Nat.shiftRight_zero, and_0xFF_eq_mod]

theorem glyphMapItem_getBGColor_eq (m : Nat) :
    glyphMapItem_getBGColor m = m / 256 % 16 := by
  unfold glyphMapItem_getBGColor GLYPHMAP_BGCOLOR_BIT
  rw [Nat.shiftRight_eq_div_pow, and_0x0F_eq_mod]

theorem glyphMapItem_getFGColor_eq (m : Nat) :
    glyphMapItem_getFGColor m = m / 4096 % 16 := by
  unfold glyphMapItem_getFGColor GLYPHMAP_FGCOLOR_BIT
  rw [Nat.shiftRight_eq_div_pow, and_0x0F_eq_mod]

theorem glyphMapItem_getOptions_eq (m : Nat) :
    glyphMapItem_getOptions m = m / 65536 % 65536 := by
  unfold glyphMapItem_getOptions GLYPHMAP_OPTIONS_BIT
  rw [Nat.shiftRight_eq_div_pow, and_0xFFFF_eq_mod]

/-- Arithmetic form of `glyphMapItem_setOptions` for an in-range options
value. -/
theorem glyphMapItem_setOptions_eq (m options : Nat) (ho : options < 65536) :
    glyphMapItem_setOptions m options = options * 65536 + m % 65536 := by
  unfold glyphMapItem_setOptions GLYPHMAP_OPTIONS_BIT
  have hmask : ((0xFFFF <<< 16) ^^^ 0xFFFFFFFF : Nat) = 0xFFFF := by decide
  rw [hmask, and_0xFFFF_eq_mod,
    lor_shiftLeft_eq_add (m % 65536) options 16 (by omega)]
  omega

/-- Claim C9: for fields in range, the glyph-map accessors recover exactly
the values packed by `GLYPHMAP_ITEM_MAKE`, and `glyphMapItem_setOptions`
replaces only the options field, leaving index and both colors unchanged. -/
theorem glyphMapItem_roundTrip (index bgColor fgColor options : Nat)
    (hi : index < 256) (hb : bgColor < 16) (hf : fgColor < 16)
    (ho : options < 65536) :
    glyphMapItem_getIndex (GLYPHMAP_ITEM_MAKE index bgColor fgColor options) = index ∧
    glyphMapItem_getBGColor (GLYPHMAP_ITEM_MAKE index bgColor fgColor options) = bgColor ∧
    glyphMapItem_getFGColor (GLYPHMAP_ITEM_MAKE index bgColor fgColor options) = fgColor ∧
    glyphMapItem_getOptions (GLYPHMAP_ITEM_MAKE index bgColor fgColor options) = options ∧
    ∀ options2 : Nat, options2 < 65536 →
      glyphMapItem_getIndex
          (glyphMapItem_setOptions (GLYPHMAP_ITEM_MAKE index bgColor fgColor options)
            options2) = index ∧
      glyphMapItem_getBGColor
          (glyphMapItem_setOptions (GLYPHMAP_ITEM_MAKE index bgColor fgColor options)
            options2) = bgColor ∧
      glyphMapItem_getFGColor
          (glyphMapItem_setOptions (GLYPHMAP_ITEM_MAKE index bgColor fgColor options)
            options2) = fgColor ∧
      glyphMapItem_getOptions
          (glyphMapItem_setOptions (GLYPHMAP_ITEM_MAKE index bgColor fgColor options)
            options2) = options2 := by
  rw [GLYPHMAP_ITEM_MAKE_eq index bgColor fgColor options hi hb hf ho]
  refine ⟨?_, ?_, ?_, ?_, ?_⟩
  · rw [glyphMapItem_getIndex_eq]; omega
  · rw [glyphMapItem_getBGColor_eq]; omega
  · rw [glyphMapItem_getFGColor_eq]; omega
  · rw [glyphMapItem_getOptions_eq]; omega
  · intro options2 ho2
    rw [glyphMapItem_setOptions_eq _ options2 ho2]
    refine ⟨?_, ?_, ?_, ?_⟩
    · rw [glyphMapItem_getIndex_eq]; omega
    · rw [glyphMapItem_getBGColor_eq]; omega
    · rw [glyphMapItem_getFGColor_eq]; omega
    · rw [glyphMapItem_getOptions_eq]; omega

/-- Witness for C9 at index 65, BG 3, FG 7, options 0xABCD, then
re-setting options to 300. -/
theorem glyphMapItem_roundTrip_witness :
    glyphMapItem_getIndex (GLYPHMAP_ITEM_MAKE 65 3 7 43981) = 65 ∧
      glyphMapItem_getOptions
        (glyphMapItem_setOptions (GLYPHMAP_ITEM_MAKE 65 3 7 43981) 300) = 300 :=
  ⟨(glyphMapItem_roundTrip 65 3 7 43981 (by decide) (by decide) (by decide)
      (by decide)).1,
   ((glyphMapItem_roundTrip 65 3 7 43981 (by decide) (by decide) (by decide)
      (by decide)).2.2.2.2 300 (by decide)).2.2.2⟩

/-- Claim C3: for channel bit depth 1 or 2 and every color whose channels
are in range for that depth, encoding with `preparePixel` (with any sync
bits) and then mask-extracting the color bits reproduces the original
color. -/
theorem preparePixel_roundTrip (bpc r g b : Nat) (hs vs : Bool)
    (hbpc : bpc = 1 ∨ bpc = 2) (hr : r < 2 ^ bpc) (hg : g < 2 ^ bpc)
    (hb : b < 2 ^ bpc) :
    extractR bpc (preparePixel bpc ⟨r, g, b⟩ hs vs) = r ∧
    extractG bpc (preparePixel bpc ⟨r, g, b⟩ hs vs) = g ∧
    extractB bpc (preparePixel bpc ⟨r, g, b⟩ hs vs) = b := by
  rcases hbpc with h | h <;> subst h <;> norm_num at hr hg hb <;>
    interval_cases r <;> interval_cases g <;> interval_cases b <;>
    cases hs <;> cases vs <;> decide

/-- Witness for C3 at depth 2, color (3, 1, 2), HSync on, VSync off. -/
theorem preparePixel_roundTrip_witness :
    extractR 2 (preparePixel 2 ⟨3, 1, 2⟩ true false) = 3 ∧
      extractG 2 (preparePixel 2 ⟨3, 1, 2⟩ true false) = 1 ∧
      extractB 2 (preparePixel 2 ⟨3, 1, 2⟩ true false) = 2 :=
  preparePixel_roundTrip 2 3 1 2 true false (Or.inr rfl) (by decide) (by decide)
    (by decide)

/-! ## Viewport packing lemmas -/

/-- Greedy packing commits exactly `min wanted maxFittingRows` rows. -/
theorem committedRows_eq_min (rowSize : Nat) (pools : List Nat) (wanted : Nat) :
    committedRows rowSize pools wanted = min wanted (maxFittingRows rowSize pools) := by
  induction pools generalizing wanted with
  | nil => simp [committedRows, packRows, maxFittingRows]
  | cons c rest ih =>
    simp only [committedRows, packRows, List.sum_cons, maxFittingRows,
      List.map_cons] at *
    rw [ih (wanted - min wanted (c / rowSize))]
    omega

/-- Each pool contributes only whole rows that fit in its capacity. -/
theorem packRows_whole_rows (rowSize : Nat) (pools : List Nat) (wanted : Nat) :
    List.Forall₂ (fun t c => t * rowSize ≤ c) (packRows rowSize pools wanted) pools := by
  induction pools generalizing wanted with
  | nil => simp [packRows]
  | cons c rest ih =>
    simp only [packRows]
    refine List.Forall₂.cons ?_ (ih _)
    calc min wanted (c / rowSize) * rowSize
        ≤ c / rowSize * rowSize := Nat.mul_le_mul_right _ (Nat.min_le_right _ _)
      _ ≤ c := Nat.div_mul_le_self c rowSize

/-- Claim C7: the committed viewport height is `min(requested, maximal
fitting)` whole rows; a negative requested height is sized to the maximum
allocable; each pool holds only whole rows within its capacity (no row
splits across pools, no partial row). -/
theorem allocateViewPortHeight_spec (rowSize : Nat) (pools : List Nat)
    (requested : Int) :
    (0 ≤ requested →
      allocateViewPortHeight rowSize pools requested =
        min requested.toNat (maxFittingRows rowSize pools)) ∧
    (requested < 0 →
      allocateViewPortHeight rowSize pools requested =
        maxFittingRows rowSize pools) ∧
    ∀ wanted : Nat,
      List.Forall₂ (fun t c => t * rowSize ≤ c) (packRows rowSize pools wanted)
        pools := by
  refine ⟨?_, ?_, fun wanted => packRows_whole_rows rowSize pools wanted⟩
  · intro h
    rw [allocateViewPortHeight, if_neg (by omega), committedRows_eq_min]
  · intro h
    rw [allocateViewPortHeight, if_pos h]

/-- Witness for C7: requesting 5 rows of size 4 from pools of 10 and 7
bytes commits min 5 3 = 3 rows. -/
theorem allocateViewPortHeight_spec_witness :
    allocateViewPortHeight 4 [10, 7] 5 = min (Int.toNat 5) (maxFittingRows 4 [10, 7]) :=
  (allocateViewPortHeight_spec 4 [10, 7] 5).1 (by decide)

/-! ## Clipping lemmas -/

/-- Membership in an intersection is conjunction of memberships. -/
theorem Rect.containsPt_inter_eq (a b : Rect) (x y : Int) :
    (a.inter b).containsPt x y = (a.containsPt x y && b.containsPt x y) := by
  rw [Bool.eq_iff_iff]
  simp only [Rect.inter, Rect.containsPt, Bool.and_eq_true, decide_eq_true_eq]
  omega

/-- Helper: `clippedOverlay` never changes a pixel outside the
intersection of the clipping rectangle and the viewport. -/
theorem clippedOverlay_outside (W H : Int) (clip : Rect)
    (shape : Int → Int → Bool) (color : Int → Int → RGB) (screen : Screen)
    (x y : Int) (h : (clip.inter (viewPortRect W H)).containsPt x y = false) :
    clippedOverlay W H clip shape color screen x y = screen x y := by
  rw [Rect.containsPt_inter_eq] at h
  unfold clippedOverlay
  split
  · next hc =>
    exfalso
    obtain ⟨h1, h2, h3⟩ := hc
    rw [h2, h3] at h
    simp at h
  · rfl

/-- Helper: the general glyph path never changes a pixel outside the
intersection of the clipping rectangle and the viewport. -/
theorem execDrawGlyph_full_outside (W H : Int) (ps : PaintState) (g : Glyph)
    (opts : GlyphOptions) (pen brush : RGB) (screen : Screen) (x y : Int)
    (h : (ps.absClippingRect.inter (viewPortRect W H)).containsPt x y = false) :
    execDrawGlyph_full W H ps g opts pen brush screen x y = screen x y := by
  rw [Rect.containsPt_inter_eq] at h
  simp only [execDrawGlyph_full]
  split
  · next hc =>
    exfalso
    obtain ⟨h1, h2, h3, h4, h5, h6⟩ := hc
    rw [h5, h6] at h
    simp at h
  · rfl

/-- Helper: the fast glyph path never changes a pixel outside the
intersection of the clipping rectangle and the viewport. -/
theorem execDrawGlyph_light_outside (W H : Int) (ps : PaintState) (g : Glyph)
    (opts : GlyphOptions) (pen brush : RGB) (screen : Screen) (x y : Int)
    (h : (ps.absClippingRect.inter (viewPortRect W H)).containsPt x y = false) :
    execDrawGlyph_light W H ps g opts pen brush screen x y = screen x y := by
  rw [Rect.containsPt_inter_eq] at h
  simp only [execDrawGlyph_light]
  split
  · next hc =>
    exfalso
    obtain ⟨h1, h2, h3, h4, h5, h6⟩ := hc
    rw [h5, h6] at h
    simp at h
  · rfl

/-- Helper: the dispatching glyph draw never changes a pixel outside the
intersection of the clipping rectangle and the viewport. -/
theorem execDrawGlyph_outside (W H : Int) (ps : PaintState) (g : Glyph)
    (opts : GlyphOptions) (pen brush : RGB) (screen : Screen) (x y : Int)
    (h : (ps.absClippingRect.inter (viewPortRect W H)).containsPt x y = false) :
    execDrawGlyph W H ps g opts pen brush screen x y = screen x y := by
  unfold execDrawGlyph
  split
  · exact execDrawGlyph_light_outside W H ps g opts pen brush screen x y h
  · exact execDrawGlyph_full_outside W H ps g opts pen brush screen x y h

/-- Claim C1: for every primitive command of `enum PrimitiveCmd` and
every payload, executing the primitive modifies no pixel outside the
intersection of the absolute clipping rectangle and the viewport (every
write is guarded, so no out-of-bounds buffer access occurs), and a
FillRect whose origin-translated rectangle is disjoint from the clipping
rectangle is a no-op on the viewport while still consuming its queue
slot. -/
theorem execPrimitive_clipping (W H : Int) (ps : PaintState) (screen : Screen) :
    (∀ (pr : Prim) (x y : Int),
        (ps.absClippingRect.inter (viewPortRect W H)).containsPt x y = false →
        (execPrimitiveS W H pr (ps, screen)).2 x y = screen x y) ∧
    (∀ r : Rect,
        (r.translate ps.origin).disjoint ps.absClippingRect = true →
        (∀ x y : Int, execFillRect W H ps r screen x y = screen x y) ∧
        ∀ rest : List Prim,
          (execQueueStep W H (Prim.fillRect r :: rest, ps, screen)).1.length =
            rest.length) := by
  constructor
  · intro pr x y h
    cases pr with
    | setPenColor c => rfl
    | setBrushColor c => rfl
    | setPixel p =>
      show execSetPixel W H ps p screen x y = screen x y
      exact clippedOverlay_outside W H ps.absClippingRect _ _ screen x y h
    | moveTo p => rfl
    | lineTo p =>
      show execLineTo W H ps p screen x y = screen x y
      exact clippedOverlay_outside W H ps.absClippingRect _ _ screen x y h
    | fillRect r =>
      show execFillRect W H ps r screen x y = screen x y
      exact clippedOverlay_outside W H ps.absClippingRect _ _ screen x y h
    | fillEllipse sz =>
      show execFillEllipse W H ps sz screen x y = screen x y
      exact clippedOverlay_outside W H ps.absClippingRect _ _ screen x y h
    | drawEllipse sz =>
      show execDrawEllipse W H ps sz screen x y = screen x y
      exact clippedOverlay_outside W H ps.absClippingRect _ _ screen x y h
    | clear =>
      show execClear W H ps screen x y = screen x y
      exact clippedOverlay_outside W H ps.absClippingRect _ _ screen x y h
    | vScroll amount =>
      show execVScroll W H ps amount screen x y = screen x y
      exact clippedOverlay_outside W H ps.absClippingRect _ _ screen x y h
    | hScroll amount =>
      show execHScroll W H ps amount screen x y = screen x y
      exact clippedOverlay_outside W H ps.absClippingRect _ _ screen x y h
    | drawGlyph g =>
      show execDrawGlyph W H ps g ps.glyphOptions ps.penColor ps.brushColor
        screen x y = screen x y
      exact execDrawGlyph_outside W H ps g ps.glyphOptions ps.penColor ps.brushColor
        screen x y h
    | setGlyphOptions o => rfl
    | setPaintOptions o => rfl
    | invertRect r =>
      show execInvertRect W H ps r screen x y = screen x y
      exact clippedOverlay_outside W H ps.absClippingRect _ _ screen x y h
    | copyRect r =>
      show execCopyRect W H ps r screen x y = screen x y
      exact clippedOverlay_outside W H ps.absClippingRect _ _ screen x y h
    | setScrollingRegion r => rfl
    | swapFGBG r =>
      show execSwapFGBG W H ps r screen x y = screen x y
      exact clippedOverlay_outside W H ps.absClippingRect _ _ screen x y h
    | readRawData rd => rfl
    | writeRawData rd =>
      show execWriteRawData W H ps rd screen x y = screen x y
      exact clippedOverlay_outside W H ps.absClippingRect _ _ screen x y h
    | renderGlyphsBuffer info =>
      show execRenderGlyphsBuffer W H ps info screen x y = screen x y
      unfold execRenderGlyphsBuffer
      exact execDrawGlyph_outside W H ps _ _ _ _ screen x y h
    | drawBitmap info =>
      show execDrawBitmap W H ps info screen x y = screen x y
      exact clippedOverlay_outside W H ps.absClippingRect _ _ screen x y h
    | refreshSprites => rfl
    | swapBuffers => rfl
    | fillPath p =>
      show execFillPath W H ps p screen x y = screen x y
      exact clippedOverlay_outside W H ps.absClippingRect _ _ screen x y h
    | drawPath p =>
      show execDrawPath W H ps p screen x y = screen x y
      exact clippedOverlay_outside W H ps.absClippingRect _ _ screen x y h
    | setOrigin p => rfl
    | setClippingRect r => rfl
  · intro r hdisj
    constructor
    · intro x y
      simp only [execFillRect, clippedOverlay]
      split
      · next hcond =>
        exfalso
        obtain ⟨h1, h2, h3⟩ := hcond
        simp only [Rect.disjoint, Rect.translate, Rect.containsPt,
          Bool.or_eq_true, Bool.and_eq_true, decide_eq_true_eq] at hdisj h1 h2
        omega
      · rfl
    · intro rest
      rfl

/-- Default glyph options value (all flags clear). -/
def optsNone : GlyphOptions :=
  ⟨false, false, false, false, false, false, false, 0, false, false⟩

/-- Concrete paint state used by the C1 witness: clip rectangle 0..9 in
both axes, origin at zero. -/
def psC1 : PaintState :=
  ⟨⟨1, 1, 1⟩, ⟨2, 0, 0⟩, ⟨0, 0⟩, optsNone, ⟨false⟩, ⟨0, 0, 9, 9⟩, ⟨0, 0⟩,
   ⟨0, 0, 9, 9⟩, ⟨0, 0, 9, 9⟩⟩

/-- Concrete screen used by the C1 witness. -/
def scrC1 : Screen := fun _ _ => ⟨0, 0, 0⟩

/-- Witness for C1: a pixel left of the viewport is untouched by Clear,
and a FillRect at 20..30 (fully outside the clip rectangle) changes
nothing while its queue slot is consumed. -/
theorem execPrimitive_clipping_witness :
    (execPrimitiveS 10 10 Prim.clear (psC1, scrC1)).2 (-1) 0 = scrC1 (-1) 0 ∧
      execFillRect 10 10 psC1 ⟨20, 20, 30, 30⟩ scrC1 5 5 = scrC1 5 5 ∧
      (execQueueStep 10 10
        (Prim.fillRect ⟨20, 20, 30, 30⟩ :: [], psC1, scrC1)).1.length = 0 :=
  ⟨(execPrimitive_clipping 10 10 psC1 scrC1).1 Prim.clear (-1) 0 (by decide),
   ((execPrimitive_clipping 10 10 psC1 scrC1).2 ⟨20, 20, 30, 30⟩ (by decide)).1 5 5,
   ((execPrimitive_clipping 10 10 psC1 scrC1).2 ⟨20, 20, 30, 30⟩ (by decide)).2 []⟩

/-- Claim C2 (amended): whenever the glyph options apply no style
transform (bold, italic, underline, blank clear and doubleWidth 0 — the
condition under which the fast path is selected), the fast and the
general glyph-rendering paths produce identical viewport contents, for
every glyph, every fillBackground/invert setting, every pen and brush
color and every paint state. -/
theorem drawGlyph_paths_agree (W H : Int) (ps : PaintState) (g : Glyph)
    (opts : GlyphOptions) (pen brush : RGB) (screen : Screen)
    (h : noStyleTransform opts = true) :
    ∀ x y : Int,
      execDrawGlyph_full W H ps g opts pen brush screen x y =
        execDrawGlyph_light W H ps g opts pen brush screen x y := by
  obtain ⟨fb, bo, rl, it, inv, bl, ul, dw, u1, u2⟩ := opts
  simp only [noStyleTransform, Bool.and_eq_true, Bool.not_eq_true',
    beq_iff_eq] at h
  obtain ⟨⟨⟨⟨hbo, hit⟩, hul⟩, hbl⟩, hdw⟩ := h
  subst hbo; subst hit; subst hul; subst hbl; subst hdw
  intro x y
  simp [execDrawGlyph_full, execDrawGlyph_light, styledGlyphBit,
    glyphCellWidth, glyphInvertEff]

/-- Concrete glyph for the C2 theorems: 2 wide, 1 tall, only the left
pixel set. -/
def glyC2 : Glyph := ⟨0, 0, 2, 1, fun r c => decide (r = 0) && decide (c = 0)⟩

/-- Concrete paint state for the C2 theorems. -/
def psC2 : PaintState :=
  ⟨⟨3, 0, 0⟩, ⟨0, 0, 0⟩, ⟨0, 0⟩, optsNone, ⟨false⟩, ⟨0, 0, 9, 9⟩, ⟨0, 0⟩,
   ⟨0, 0, 9, 9⟩, ⟨0, 0, 9, 9⟩⟩

/-- Concrete screen for the C2 theorems. -/
def scrC2 : Screen := fun _ _ => ⟨2, 2, 2⟩

/-- Glyph options with the bold style transform set (and fillBackground). -/
def optsBoldC2 : GlyphOptions :=
  ⟨true, true, false, false, false, false, false, 0, false, false⟩

/-- Glyph options with no style transform (fillBackground and invert set). -/
def optsPlainC2 : GlyphOptions :=
  ⟨true, false, false, false, true, false, false, 0, false, false⟩

/-- Counterexample to C2 as stated: with the bold flag set the general
path paints the smeared pixel at (1,0) with the foreground color while
the fast path (which applies no style transform) paints the background
color there, so the two paths do not produce identical output for every
flag combination. -/
theorem drawGlyph_paths_differ :
    execDrawGlyph_full 10 10 psC2 glyC2 optsBoldC2 ⟨3, 0, 0⟩ ⟨0, 0, 0⟩ scrC2 1 0 ≠
      execDrawGlyph_light 10 10 psC2 glyC2 optsBoldC2 ⟨3, 0, 0⟩ ⟨0, 0, 0⟩ scrC2 1 0 := by
  decide

/-- Witness for the amended C2 at a no-style-transform option set. -/
theorem drawGlyph_paths_agree_witness :
    execDrawGlyph_full 10 10 psC2 glyC2 optsPlainC2 ⟨3, 0, 0⟩ ⟨0, 0, 0⟩ scrC2 0 0 =
      execDrawGlyph_light 10 10 psC2 glyC2 optsPlainC2 ⟨3, 0, 0⟩ ⟨0, 0, 0⟩ scrC2 0 0 :=
  drawGlyph_paths_agree 10 10 psC2 glyC2 optsPlainC2 ⟨3, 0, 0⟩ ⟨0, 0, 0⟩ scrC2
    (by decide) 0 0
